import Mathlib

/-!
Verification of the tool-dispatch layer of `src/src/Python/server.py`
(mcp-markdownlint).

Path model: an absolute, already-`resolve()`d path is a list of name
components listed innermost-first (leaf to root), so `Path.parent` is
`List.tail` and the filesystem root `/` is `[]`.  Joining a directory `d`
with an entry name `n` (`current_dir / config_name`) is `n :: d`.  The
Python guard `current_dir != current_dir.parent` is therefore `d ≠ []`.

The filesystem is an oracle of two total boolean predicates, matching
`Path.exists()` and `Path.is_file()` (both return `False` rather than
raising on missing entries).
-/

namespace MarkdownlintServer

/-- An absolute path, components innermost-first; `[]` is the root. -/
abbrev RPath := List String

/-- Filesystem oracle: `pathExists` models `Path.exists()` and `isFile`
models `Path.is_file()`; both are total (they never raise). -/
structure FS where
  pathExists : RPath → Bool
  isFile : RPath → Bool

/-- `config_names = ['.markdownlint.json', '.markdownlint.jsonc', '.markdownlintrc']`
(server.py line 43), in the order the inner `for` loop tries them. -/
def config_names : List String :=
  [".markdownlint.json", ".markdownlint.jsonc", ".markdownlintrc"]

/-- The body of one iteration of the `while` loop of `find_config_file`
(server.py lines 46-49): try each candidate name in order in directory `d`
and return the first whose path exists. -/
def checkDir (fs : FS) (d : RPath) : Option RPath :=
  config_names.findSome? (fun n => if fs.pathExists (n :: d) then some (n :: d) else none)

/-- The `while current_dir != current_dir.parent` loop of `find_config_file`
(server.py lines 45-50): at the root (`[]`, equal to its own parent) the
loop exits with no directory scanned and the function returns `None`. -/
def searchUp (fs : FS) : RPath → Option RPath
  | [] => none
  | d@(_ :: parent) =>
    match checkDir fs d with
    | some c => some c
    | none => searchUp fs parent

/-- Start of the ascent (server.py line 40):
`file_path_obj.parent if file_path_obj.is_file() else file_path_obj`. -/
def startDir (fs : FS) (p : RPath) : RPath :=
  if fs.isFile p then p.tail else p

/-- `find_config_file` (server.py lines 29-52); its argument is the
already-resolved path (`Path(file_path).resolve()` is the identity on the
normalized paths of this model). -/
def find_config_file (fs : FS) (p : RPath) : Option RPath :=
  searchUp fs (startDir fs p)

/-- The chain of directories the `while` loop visits, nearest first:
the start directory, its parent, and so on down to — but excluding — the
root `[]`. -/
def ancChain : RPath → List RPath
  | [] => []
  | d@(_ :: parent) => d :: ancChain parent

lemma mem_ancChain_length {s d : RPath} (h : d ∈ ancChain s) : d.length ≤ s.length := by
  induction s with
  | nil => simp [ancChain] at h
  | cons a t ih =>
    simp only [ancChain, List.mem_cons] at h
    rcases h with rfl | h
    · exact le_refl _
    · exact le_trans (ih h) (by simp)

lemma searchUp_eq_findSome (fs : FS) : ∀ d, searchUp fs d = (ancChain d).findSome? (checkDir fs) := by
  intro d
  induction d with
  | nil => simp [searchUp, ancChain]
  | cons a t ih =>
    rw [searchUp, ancChain, List.findSome?_cons]
    cases hc : checkDir fs (a :: t) <;> simp [hc, ih]

lemma findSome?_chain_nearest (fs : FS) :
    ∀ s d c, d ∈ ancChain s → checkDir fs d = some c →
      (∀ d', d' ∈ ancChain s → d.length < d'.length → checkDir fs d' = none) →
      (ancChain s).findSome? (checkDir fs) = some c := by
  intro s
  induction s with
  | nil => intro d c hd _ _; simp [ancChain] at hd
  | cons a t ih =>
    intro d c hd hc hnone
    rw [ancChain] at hd ⊢
    rw [List.findSome?_cons]
    rcases List.mem_cons.mp hd with rfl | hmem
    · simp [hc]
    · have hlt : d.length < (a :: t).length := by
        have := mem_ancChain_length hmem
        simp only [List.length_cons]
        omega
      have hhead : checkDir fs (a :: t) = none := by
        refine hnone (a :: t) ?_ hlt
        rw [ancChain]
        exact List.mem_cons_self _ _
      rw [hhead]
      exact ih d c hmem hc (fun d' hd' hl => hnone d' (by rw [ancChain]; exact List.mem_cons_of_mem _ hd') hl)

lemma checkDir_eq_none (fs : FS) (d : RPath) :
    checkDir fs d = none ↔ ∀ n ∈ config_names, fs.pathExists (n :: d) = false := by
  rw [checkDir, List.findSome?_eq_none_iff]
  constructor
  · intro h n hn
    have hx := h n hn
    by_cases hb : fs.pathExists (n :: d) = true
    · simp [hb] at hx
    · simpa using hb
  · intro h n hn
    simp [h n hn]

/-- C1 (amended): `find_config_file` returns the config found in the
nearest ancestor directory of the start directory STRICTLY BELOW the
filesystem root (the root directory itself is never scanned, because the
`while` guard `current_dir != current_dir.parent` is tested before the
candidate names are), and within a single directory it prefers
`.markdownlint.json` over `.markdownlint.jsonc` over `.markdownlintrc`. -/
theorem C1_nearest_and_preference :
    (∀ fs p d c, d ∈ ancChain (startDir fs p) →
        (∀ d', d' ∈ ancChain (startDir fs p) → d.length < d'.length → checkDir fs d' = none) →
        checkDir fs d = some c →
        find_config_file fs p = some c)
  ∧ (∀ fs d, fs.pathExists (".markdownlint.json" :: d) = true →
        checkDir fs d = some (".markdownlint.json" :: d))
  ∧ (∀ fs d, fs.pathExists (".markdownlint.json" :: d) = false →
        fs.pathExists (".markdownlint.jsonc" :: d) = true →
        checkDir fs d = some (".markdownlint.jsonc" :: d))
  ∧ (∀ fs d, fs.pathExists (".markdownlint.json" :: d) = false →
        fs.pathExists (".markdownlint.jsonc" :: d) = false →
        fs.pathExists (".markdownlintrc" :: d) = true →
        checkDir fs d = some (".markdownlintrc" :: d)) := by
  refine ⟨?_, ?_, ?_, ?_⟩
  · intro fs p d c hd hnone hc
    rw [find_config_file, searchUp_eq_findSome]
    exact findSome?_chain_nearest fs (startDir fs p) d c hd hc hnone
  · intro fs d h
    simp [checkDir, config_names, List.findSome?_cons, h]
  · intro fs d h1 h2
    simp [checkDir, config_names, List.findSome?_cons, h1, h2]
  · intro fs d h1 h2 h3
    simp [checkDir, config_names, List.findSome?_cons, h1, h2, h3]

/-- Filesystem with a single entry: `/a/.markdownlint.json`. -/
def fsLocalCfg : FS where
  pathExists := fun q => q == [".markdownlint.json", "a"]
  isFile := fun _ => false

/-- Witness for C1: the config sitting in the start directory `/a` itself
is found. -/
theorem C1_witness :
    find_config_file fsLocalCfg ["a"] = some [".markdownlint.json", "a"] :=
  C1_nearest_and_preference.1 fsLocalCfg ["a"] ["a"] [".markdownlint.json", "a"]
    (by decide) (by decide) (by decide)

/-- Filesystem whose only entry is `/.markdownlint.json`, i.e. the highest
priority config name directly in the filesystem root. -/
def fsRootOnly : FS where
  pathExists := fun q => q == [".markdownlint.json"]
  isFile := fun _ => false

/-- Counterexample to C1 as stated: for target `/a`, the nearest ancestor
directory containing a recognized config filename is the root `/`
(`/.markdownlint.json` exists), yet `find_config_file` returns `None`,
because the `while` loop exits at the root before scanning it. -/
theorem C1_counterexample :
    find_config_file fsRootOnly ["a"] = none
      ∧ fsRootOnly.pathExists (".markdownlint.json" :: ([] : RPath)) = true
      ∧ fsRootOnly.isFile ["a"] = false := by
  refine ⟨rfl, by decide, rfl⟩

/-- C2 (amended): `find_config_file` returns `None` exactly when no
recognized config filename exists in any directory from the start
directory up to BUT EXCLUDING the filesystem root; a config present only
in the root directory itself is never found. -/
theorem C2_none_iff_no_config_below_root (fs : FS) (p : RPath) :
    find_config_file fs p = none ↔
      ∀ d ∈ ancChain (startDir fs p), ∀ n ∈ config_names, fs.pathExists (n :: d) = false := by
  rw [find_config_file, searchUp_eq_findSome, List.findSome?_eq_none_iff]
  constructor
  · intro h d hd
    exact (checkDir_eq_none fs d).mp (h d hd)
  · intro h d hd
    exact (checkDir_eq_none fs d).mpr (h d hd)

/-- Filesystem with no entries at all. -/
def fsEmptyFS : FS where
  pathExists := fun _ => false
  isFile := fun _ => false

/-- Witness for C2 at a concrete empty filesystem. -/
theorem C2_witness : find_config_file fsEmptyFS ["b"] = none :=
  (C2_none_iff_no_config_below_root fsEmptyFS ["b"]).mpr (by decide)

/-- Filesystem whose only entry is `/.markdownlintrc` in the root. -/
def fsRootRcOnly : FS where
  pathExists := fun q => q == [".markdownlintrc"]
  isFile := fun _ => false

/-- Counterexample to C2 as stated: a recognized filename
(`/.markdownlintrc`) exists on the ancestor chain of `/a` — namely in the
root directory itself — yet `find_config_file` returns `None` instead of a
path. -/
theorem C2_counterexample :
    find_config_file fsRootRcOnly ["a"] = none
      ∧ fsRootRcOnly.pathExists (".markdownlintrc" :: ([] : RPath)) = true := by
  refine ⟨rfl, by decide⟩

/-- Fueled rendition of the `while` loop of `find_config_file`, counting
iterations: `none` means the fuel ran out before the loop finished, `some r`
means the loop finished with result `r`. -/
def searchUpFuel (fs : FS) : Nat → RPath → Option (Option RPath)
  | 0, _ => none
  | _ + 1, [] => some none
  | fuel + 1, d@(_ :: parent) =>
    match checkDir fs d with
    | some c => some (some c)
    | none => searchUpFuel fs fuel parent

/-- C8: the directory ascent of `find_config_file` terminates for every
filesystem oracle and every start directory — each iteration strictly
shortens the path until it equals its own parent (the root `[]`), so the
loop finishes within `d.length + 1` iterations.  This holds for arbitrary
`pathExists`/`isFile` behaviour (missing directories simply answer `false`;
symlink cycles cannot arise because `Path.parent` on the resolved path is
purely syntactic), and the function is total — it raises nothing. -/
theorem C8_termination (fs : FS) (d : RPath) :
    ∀ fuel, d.length < fuel → searchUpFuel fs fuel d = some (searchUp fs d) := by
  induction d with
  | nil =>
    intro fuel h
    match fuel, h with
    | f + 1, _ => rfl
  | cons a t ih =>
    intro fuel h
    match fuel, h with
    | f + 1, h =>
      rw [searchUpFuel, searchUp]
      cases hc : checkDir fs (a :: t) with
      | some c => rfl
      | none =>
        have : t.length < f := by
          simp only [List.length_cons] at h
          omega
        simpa using ih f this

/-- Witness for C8: the loop on `/w` over the empty filesystem finishes
with fuel 2. -/
theorem C8_witness : searchUpFuel fsEmptyFS 2 ["w"] = some (searchUp fsEmptyFS ["w"]) :=
  C8_termination fsEmptyFS ["w"] 2 (by decide)

/-!
Dispatcher model (`handle_call_tool`, server.py lines 98-266).

The MCP `arguments` dict is an association list of string-valued entries;
`dict.get` is an ordered lookup.  Python truthiness of an optional string
(`if not arguments`, `if not file_path`, `if not config_path`,
`if config_path`, `if output`) is `truthy`.  A `raise ValueError(...)`
leaving the handler is `Except.error`; a returned `[TextContent(...)]`
list is `Except.ok` with the list of text blocks.

The external engine (`pymarkdown.api`) is part of the environment `Env`:
`installed` is `PyMarkdownApi is not None`; `scan`/`fix` give, for a file
path string and an applied configuration path, the behaviour of
`api.scan_path`/`api.fix_path` — either a normal result (plus the text the
engine printed to `sys.stdout`, i.e. into the capture buffer), a raised
`PyMarkdownApiException`, or any other raised exception.  `resolve` and
`render` model `Path(s).resolve()` and `str(path)`.

Ghost instrumentation: `CallTrace` records whether `find_config_file` was
called, whether the engine call region (the `try` body containing
`api.scan_path`/`api.fix_path`) was reached, which configuration value was
handed to the engine, and the successive values assigned to `sys.stdout`
(`captureBuffer` at line 148/223, `original` at lines 155/173 resp.
230/248 — the `finally` restore fires on both the normal and the
exception path). -/

/-- A value `sys.stdout` can hold during one invocation. -/
inductive StdoutVal where
  | original
  | captureBuffer
deriving DecidableEq, Repr

/-- Assignments to `sys.stdout` on the normal return path: redirect to the
buffer, restore inside the `try` (line 155/230), restore again in
`finally` (line 173/248). -/
def logNormal : List StdoutVal :=
  [StdoutVal.captureBuffer, StdoutVal.original, StdoutVal.original]

/-- Assignments to `sys.stdout` when the engine call raises: redirect to
the buffer, then the `finally` restore while the exception propagates. -/
def logExc : List StdoutVal :=
  [StdoutVal.captureBuffer, StdoutVal.original]

/-- Ghost record of one invocation's side effects. -/
structure CallTrace where
  resolverCalled : Bool
  engineCalled : Bool
  engineConfigArg : Option (Option String)
  stdoutLog : List StdoutVal
deriving DecidableEq, Repr

/-- Trace of an invocation that never reaches the engine call region. -/
def CallTrace.empty : CallTrace := ⟨false, false, none, []⟩

/-- A `raise` escaping `handle_call_tool`. -/
inductive DispatchError where
  | valueError (msg : String)
deriving DecidableEq, Repr

/-- Behaviour of one engine call, as observed by the dispatcher. -/
inductive EngineOutcome (α : Type) where
  | ok (result : α) (written : String)
  | apiExc (msg : String) (written : String)
  | otherExc (msg : String) (written : String)
deriving DecidableEq, Repr

/-- `scan_result.scan_failures` truthiness (non-empty failure list). -/
structure ScanResult where
  scan_failures : Bool
deriving DecidableEq, Repr

/-- `fix_result.files_fixed` truthiness. -/
structure FixResult where
  files_fixed : Bool
deriving DecidableEq, Repr

/-- The process environment an invocation runs against. -/
structure Env where
  fs : FS
  installed : Bool
  resolve : String → RPath
  render : RPath → String
  scan : String → Option String → EngineOutcome ScanResult
  fix : String → Option String → EngineOutcome FixResult

/-- The MCP arguments dict, as string-keyed string entries. -/
abbrev Args := List (String × String)

/-- `arguments.get(k)`. -/
def getArg (args : Args) (k : String) : Option String :=
  (args.find? (fun kv => kv.fst == k)).map (fun kv => kv.snd)

/-- Python truthiness of `str | None`: `None` and the empty string are
falsy. -/
def truthy : Option String → Bool
  | none => false
  | some s => !(s == "")

def notInstalledMsg : String :=
  "Error: pymarkdownlnt is not installed. Please install it with: pip install pymarkdownlnt"

def fileNotFoundMsg (fp : String) : String := "Error: File not found: " ++ fp

def lintOkMsg (fp : String) : String := "✓ No linting errors found in " ++ fp

def lintIssuesMsg (fp out : String) : String :=
  "Linting errors found in " ++ fp ++ ":\n\n" ++
    (if out = "" then "Issues found but no detailed output." else out)

def lintApiErrMsg (fp msg : String) : String := "Error linting " ++ fp ++ ": " ++ msg

def lintOtherErrMsg (msg : String) : String := "Error running pymarkdown: " ++ msg

def fixOkMsg (fp out : String) : String :=
  "✓ Fixed linting issues in " ++ fp ++ "\n\n" ++
    (if out = "" then "All auto-fixable issues have been resolved." else out)

def fixNoopMsg (fp out : String) : String :=
  "No auto-fixable issues found in " ++ fp ++ "\n\n" ++
    (if out = "" then "File may already be compliant or issues require manual fixing." else out)

def fixApiErrMsg (fp msg : String) : String := "Error fixing " ++ fp ++ ": " ++ msg

def fixOtherErrMsg (msg : String) : String := "Error running pymarkdown fix: " ++ msg

/-- Lines 137-139: `config_path = arguments.get("config_path")`, and
`if not config_path: config_path = find_config_file(file_path)`. -/
def chosenConfig (env : Env) (args : Args) (rp : RPath) : Option String :=
  if truthy (getArg args "config_path") then getArg args "config_path"
  else (find_config_file env.fs rp).map env.render

/-- Lines 142-143: `if config_path: api = api.configuration_file_path(config_path)` —
the configuration the engine actually runs with (`none` = engine defaults). -/
def appliedConfig (env : Env) (args : Args) (rp : RPath) : Option String :=
  if truthy (chosenConfig env args rp) then chosenConfig env args rp else none

/-- Whether line 139 executes, i.e. `find_config_file` is called. -/
def resolverUsed (args : Args) : Bool := !(truthy (getArg args "config_path"))

/-- The `lint_markdown` branch (server.py lines 115-188). -/
def runLint (env : Env) (args : Args) : Except DispatchError (List String) × CallTrace :=
  if truthy (getArg args "file_path") = false then
    (Except.error (DispatchError.valueError "file_path is required"), CallTrace.empty)
  else if env.fs.pathExists (env.resolve ((getArg args "file_path").getD "")) = false then
    (Except.ok [fileNotFoundMsg (env.render (env.resolve ((getArg args "file_path").getD "")))],
     CallTrace.empty)
  else
    match env.scan (env.render (env.resolve ((getArg args "file_path").getD "")))
        (appliedConfig env args (env.resolve ((getArg args "file_path").getD ""))) with
    | EngineOutcome.ok r output =>
      (Except.ok [if r.scan_failures
          then lintIssuesMsg (env.render (env.resolve ((getArg args "file_path").getD ""))) output
          else lintOkMsg (env.render (env.resolve ((getArg args "file_path").getD "")))],
       ⟨resolverUsed args, true,
        some (appliedConfig env args (env.resolve ((getArg args "file_path").getD ""))), logNormal⟩)
    | EngineOutcome.apiExc msg _ =>
      (Except.ok [lintApiErrMsg (env.render (env.resolve ((getArg args "file_path").getD ""))) msg],
       ⟨resolverUsed args, true,
        some (appliedConfig env args (env.resolve ((getArg args "file_path").getD ""))), logExc⟩)
    | EngineOutcome.otherExc msg _ =>
      (Except.ok [lintOtherErrMsg msg],
       ⟨resolverUsed args, true,
        some (appliedConfig env args (env.resolve ((getArg args "file_path").getD ""))), logExc⟩)

/-- The `fix_markdown` branch (server.py lines 190-263). -/
def runFix (env : Env) (args : Args) : Except DispatchError (List String) × CallTrace :=
  if truthy (getArg args "file_path") = false then
    (Except.error (DispatchError.valueError "file_path is required"), CallTrace.empty)
  else if env.fs.pathExists (env.resolve ((getArg args "file_path").getD "")) = false then
    (Except.ok [fileNotFoundMsg (env.render (env.resolve ((getArg args "file_path").getD "")))],
     CallTrace.empty)
  else
    match env.fix (env.render (env.resolve ((getArg args "file_path").getD "")))
        (appliedConfig env args (env.resolve ((getArg args "file_path").getD ""))) with
    | EngineOutcome.ok r output =>
      (Except.ok [if r.files_fixed
          then fixOkMsg (env.render (env.resolve ((getArg args "file_path").getD ""))) output
          else fixNoopMsg (env.render (env.resolve ((getArg args "file_path").getD ""))) output],
       ⟨resolverUsed args, true,
        some (appliedConfig env args (env.resolve ((getArg args "file_path").getD ""))), logNormal⟩)
    | EngineOutcome.apiExc msg _ =>
      (Except.ok [fixApiErrMsg (env.render (env.resolve ((getArg args "file_path").getD ""))) msg],
       ⟨resolverUsed args, true,
        some (appliedConfig env args (env.resolve ((getArg args "file_path").getD ""))), logExc⟩)
    | EngineOutcome.otherExc msg _ =>
      (Except.ok [fixOtherErrMsg msg],
       ⟨resolverUsed args, true,
        some (appliedConfig env args (env.resolve ((getArg args "file_path").getD ""))), logExc⟩)

/-- `handle_call_tool` (server.py lines 98-266): arguments-presence check,
engine-availability check, then dispatch on the tool name; unknown names
`raise ValueError(f"Unknown tool: \x7bname\x7d")`. -/
def handle_call_tool (env : Env) (name : String) (arguments : Option Args) :
    Except DispatchError (List String) × CallTrace :=
  match arguments with
  | none => (Except.error (DispatchError.valueError "Missing arguments"), CallTrace.empty)
  | some [] => (Except.error (DispatchError.valueError "Missing arguments"), CallTrace.empty)
  | some (kv :: rest) =>
    if env.installed = false then
      (Except.ok [notInstalledMsg], CallTrace.empty)
    else if name = "lint_markdown" then runLint env (kv :: rest)
    else if name = "fix_markdown" then runFix env (kv :: rest)
    else (Except.error (DispatchError.valueError ("Unknown tool: " ++ name)), CallTrace.empty)

/-- Whether a dispatch result is a returned content response (as opposed
to a `raise` escaping the handler). -/
def resultOk : Except DispatchError (List String) → Bool
  | Except.ok _ => true
  | Except.error _ => false

/-! Branch lemmas for `handle_call_tool` and the two tool branches. -/

lemma handle_route_lint (env : Env) (a : String × String) (t : Args)
    (hinst : env.installed = true) :
    handle_call_tool env "lint_markdown" (some (a :: t)) = runLint env (a :: t) := by
  simp [handle_call_tool, hinst]

lemma handle_route_fix (env : Env) (a : String × String) (t : Args)
    (hinst : env.installed = true) :
    handle_call_tool env "fix_markdown" (some (a :: t)) = runFix env (a :: t) := by
  simp [handle_call_tool, hinst]

lemma handle_route_unknown (env : Env) (name : String) (a : String × String) (t : Args)
    (hinst : env.installed = true)
    (h1 : name ≠ "lint_markdown") (h2 : name ≠ "fix_markdown") :
    handle_call_tool env name (some (a :: t))
      = (Except.error (DispatchError.valueError ("Unknown tool: " ++ name)), CallTrace.empty) := by
  simp [handle_call_tool, hinst, h1, h2]

lemma handle_route_unavailable (env : Env) (name : String) (a : String × String) (t : Args)
    (hinst : env.installed = false) :
    handle_call_tool env name (some (a :: t)) = (Except.ok [notInstalledMsg], CallTrace.empty) := by
  simp [handle_call_tool, hinst]

lemma runLint_notFound (env : Env) (args : Args) (fp : String)
    (hfp : getArg args "file_path" = some fp) (hfpT : fp ≠ "")
    (hex : env.fs.pathExists (env.resolve fp) = false) :
    runLint env args
      = (Except.ok [fileNotFoundMsg (env.render (env.resolve fp))], CallTrace.empty) := by
  have h1 : truthy (getArg args "file_path") = true := by rw [hfp]; simp [truthy, hfpT]
  have hgd : (getArg args "file_path").getD "" = fp := by rw [hfp]; rfl
  unfold runLint
  rw [hgd, if_neg (by simp [h1]), if_pos hex]

lemma runFix_notFound (env : Env) (args : Args) (fp : String)
    (hfp : getArg args "file_path" = some fp) (hfpT : fp ≠ "")
    (hex : env.fs.pathExists (env.resolve fp) = false) :
    runFix env args
      = (Except.ok [fileNotFoundMsg (env.render (env.resolve fp))], CallTrace.empty) := by
  have h1 : truthy (getArg args "file_path") = true := by rw [hfp]; simp [truthy, hfpT]
  have hgd : (getArg args "file_path").getD "" = fp := by rw [hfp]; rfl
  unfold runFix
  rw [hgd, if_neg (by simp [h1]), if_pos hex]

lemma runLint_engine (env : Env) (args : Args) (fp : String)
    (hfp : getArg args "file_path" = some fp) (hfpT : fp ≠ "")
    (hex : env.fs.pathExists (env.resolve fp) = true) :
    runLint env args =
      match env.scan (env.render (env.resolve fp)) (appliedConfig env args (env.resolve fp)) with
      | EngineOutcome.ok r output =>
        (Except.ok [if r.scan_failures
            then lintIssuesMsg (env.render (env.resolve fp)) output
            else lintOkMsg (env.render (env.resolve fp))],
         ⟨resolverUsed args, true, some (appliedConfig env args (env.resolve fp)), logNormal⟩)
      | EngineOutcome.apiExc msg _ =>
        (Except.ok [lintApiErrMsg (env.render (env.resolve fp)) msg],
         ⟨resolverUsed args, true, some (appliedConfig env args (env.resolve fp)), logExc⟩)
      | EngineOutcome.otherExc msg _ =>
        (Except.ok [lintOtherErrMsg msg],
         ⟨resolverUsed args, true, some (appliedConfig env args (env.resolve fp)), logExc⟩) := by
  have h1 : truthy (getArg args "file_path") = true := by rw [hfp]; simp [truthy, hfpT]
  have hgd : (getArg args "file_path").getD "" = fp := by rw [hfp]; rfl
  unfold runLint
  rw [hgd, if_neg (by simp [h1]), if_neg (by simp [hex])]

lemma runFix_engine (env : Env) (args : Args) (fp : String)
    (hfp : getArg args "file_path" = some fp) (hfpT : fp ≠ "")
    (hex : env.fs.pathExists (env.resolve fp) = true) :
    runFix env args =
      match env.fix (env.render (env.resolve fp)) (appliedConfig env args (env.resolve fp)) with
      | EngineOutcome.ok r output =>
        (Except.ok [if r.files_fixed
            then fixOkMsg (env.render (env.resolve fp)) output
            else fixNoopMsg (env.render (env.resolve fp)) output],
         ⟨resolverUsed args, true, some (appliedConfig env args (env.resolve fp)), logNormal⟩)
      | EngineOutcome.apiExc msg _ =>
        (Except.ok [fixApiErrMsg (env.render (env.resolve fp)) msg],
         ⟨resolverUsed args, true, some (appliedConfig env args (env.resolve fp)), logExc⟩)
      | EngineOutcome.otherExc msg _ =>
        (Except.ok [fixOtherErrMsg msg],
         ⟨resolverUsed args, true, some (appliedConfig env args (env.resolve fp)), logExc⟩) := by
  have h1 : truthy (getArg args "file_path") = true := by rw [hfp]; simp [truthy, hfpT]
  have hgd : (getArg args "file_path").getD "" = fp := by rw [hfp]; rfl
  unfold runFix
  rw [hgd, if_neg (by simp [h1]), if_neg (by simp [hex])]

/-! Concrete environments used by witnesses and counterexamples. -/

/-- Everything exists (as a directory); engine installed; scans are clean. -/
def fsAllFS : FS where
  pathExists := fun _ => true
  isFile := fun _ => false

def envBase : Env where
  fs := fsEmptyFS
  installed := true
  resolve := fun s => [s]
  render := fun p => String.intercalate "/" p.reverse
  scan := fun _ _ => EngineOutcome.ok ⟨false⟩ ""
  fix := fun _ _ => EngineOutcome.ok ⟨false⟩ ""

def envScanClean : Env where
  fs := fsAllFS
  installed := true
  resolve := fun s => [s]
  render := fun p => String.intercalate "/" p.reverse
  scan := fun _ _ => EngineOutcome.ok ⟨false⟩ ""
  fix := fun _ _ => EngineOutcome.ok ⟨false⟩ ""

def envApiErr : Env where
  fs := fsAllFS
  installed := true
  resolve := fun s => [s]
  render := fun p => String.intercalate "/" p.reverse
  scan := fun _ _ => EngineOutcome.apiExc "bad config" ""
  fix := fun _ _ => EngineOutcome.apiExc "bad config" ""

/-- C3: for every invocation that reaches the engine call, a raised
`PyMarkdownApiException` is caught and reported as the engine-error
content message, any other raised exception is caught and reported as the
unexpected-error content message, and the handler's result is a returned
content response (no exception escapes) for every engine behaviour. -/
theorem C3_engine_errors_mapped (env : Env) (name : String) (args : Args) (fp : String)
    (hinst : env.installed = true) (hargs : args ≠ [])
    (hfp : getArg args "file_path" = some fp) (hfpT : fp ≠ "")
    (hex : env.fs.pathExists (env.resolve fp) = true) :
    (name = "lint_markdown" →
        (∀ msg w, env.scan (env.render (env.resolve fp)) (appliedConfig env args (env.resolve fp))
              = EngineOutcome.apiExc msg w →
            (handle_call_tool env name (some args)).fst
              = Except.ok [lintApiErrMsg (env.render (env.resolve fp)) msg])
      ∧ (∀ msg w, env.scan (env.render (env.resolve fp)) (appliedConfig env args (env.resolve fp))
              = EngineOutcome.otherExc msg w →
            (handle_call_tool env name (some args)).fst
              = Except.ok [lintOtherErrMsg msg])
      ∧ resultOk (handle_call_tool env name (some args)).fst = true)
  ∧ (name = "fix_markdown" →
        (∀ msg w, env.fix (env.render (env.resolve fp)) (appliedConfig env args (env.resolve fp))
              = EngineOutcome.apiExc msg w →
            (handle_call_tool env name (some args)).fst
              = Except.ok [fixApiErrMsg (env.render (env.resolve fp)) msg])
      ∧ (∀ msg w, env.fix (env.render (env.resolve fp)) (appliedConfig env args (env.resolve fp))
              = EngineOutcome.otherExc msg w →
            (handle_call_tool env name (some args)).fst
              = Except.ok [fixOtherErrMsg msg])
      ∧ resultOk (handle_call_tool env name (some args)).fst = true) := by
  obtain ⟨a, t, rfl⟩ := List.exists_cons_of_ne_nil hargs
  constructor
  · rintro rfl
    rw [handle_route_lint env a t hinst, runLint_engine env (a :: t) fp hfp hfpT hex]
    cases hsc : env.scan (env.render (env.resolve fp))
        (appliedConfig env (a :: t) (env.resolve fp)) with
    | ok r output =>
      refine ⟨?_, ?_, rfl⟩
      · intro msg w h; cases h
      · intro msg w h; cases h
    | apiExc m w0 =>
      refine ⟨?_, ?_, rfl⟩
      · intro msg w h; cases h; rfl
      · intro msg w h; cases h
    | otherExc m w0 =>
      refine ⟨?_, ?_, rfl⟩
      · intro msg w h; cases h
      · intro msg w h; cases h; rfl
  · rintro rfl
    rw [handle_route_fix env a t hinst, runFix_engine env (a :: t) fp hfp hfpT hex]
    cases hsc : env.fix (env.render (env.resolve fp))
        (appliedConfig env (a :: t) (env.resolve fp)) with
    | ok r output =>
      refine ⟨?_, ?_, rfl⟩
      · intro msg w h; cases h
      · intro msg w h; cases h
    | apiExc m w0 =>
      refine ⟨?_, ?_, rfl⟩
      · intro msg w h; cases h; rfl
      · intro msg w h; cases h
    | otherExc m w0 =>
      refine ⟨?_, ?_, rfl⟩
      · intro msg w h; cases h
      · intro msg w h; cases h; rfl

/-- Witness for C3: an engine that always raises `PyMarkdownApiException`
yields the engine-error content message. -/
theorem C3_witness :
    (handle_call_tool envApiErr "lint_markdown" (some [("file_path", "m.md")])).fst
      = Except.ok [lintApiErrMsg (envApiErr.render (envApiErr.resolve "m.md")) "bad config"] :=
  ((C3_engine_errors_mapped envApiErr "lint_markdown" [("file_path", "m.md")] "m.md"
      rfl (by decide) rfl (by decide) rfl).1 rfl).1 "bad config" "" rfl

/-- C4: a lint or fix invocation whose resolved target path does not exist
returns the not-found content message (a returned response, not a raise),
and the engine-call region is never entered — provided the invocation
passes the argument and engine-availability checks that precede the
existence test in the handler. -/
theorem C4_notfound_no_engine (env : Env) (name : String) (args : Args) (fp : String)
    (hinst : env.installed = true)
    (hname : name = "lint_markdown" ∨ name = "fix_markdown")
    (hargs : args ≠ [])
    (hfp : getArg args "file_path" = some fp) (hfpT : fp ≠ "")
    (hex : env.fs.pathExists (env.resolve fp) = false) :
    (handle_call_tool env name (some args)).fst
        = Except.ok [fileNotFoundMsg (env.render (env.resolve fp))]
      ∧ (handle_call_tool env name (some args)).snd.engineCalled = false := by
  obtain ⟨a, t, rfl⟩ := List.exists_cons_of_ne_nil hargs
  rcases hname with rfl | rfl
  · rw [handle_route_lint env a t hinst, runLint_notFound env (a :: t) fp hfp hfpT hex]
    exact ⟨rfl, rfl⟩
  · rw [handle_route_fix env a t hinst, runFix_notFound env (a :: t) fp hfp hfpT hex]
    exact ⟨rfl, rfl⟩

/-- Witness for C4 on the empty filesystem. -/
theorem C4_witness :
    (handle_call_tool envBase "lint_markdown" (some [("file_path", "a.md")])).fst
        = Except.ok [fileNotFoundMsg (envBase.render (envBase.resolve "a.md"))]
      ∧ (handle_call_tool envBase "lint_markdown" (some [("file_path", "a.md")])).snd.engineCalled
        = false :=
  C4_notfound_no_engine envBase "lint_markdown" [("file_path", "a.md")] "a.md"
    rfl (Or.inl rfl) (by decide) rfl (by decide) rfl

/-- Counterexample to C5 as stated: with the engine installed and a
non-empty arguments mapping, an unknown tool name makes the handler RAISE
`ValueError("Unknown tool: ...")` — a propagated fault, not a
content-carrying `UnknownOperation` response (`resultOk` is `false`). -/
theorem C5_counterexample :
    (handle_call_tool envBase "unknown_tool" (some [("file_path", "x")])).fst
        = Except.error (DispatchError.valueError "Unknown tool: unknown_tool")
      ∧ resultOk (handle_call_tool envBase "unknown_tool" (some [("file_path", "x")])).fst
        = false := ⟨rfl, rfl⟩

/-- C5 (amended): for a non-empty arguments mapping and a tool name that is
neither catalog entry, the handler raises `ValueError("Unknown tool: ...")`
when the engine capability is installed, and returns the fixed
engine-unavailable content message (without examining the tool name) when
it is not. -/
theorem C5_unknown_tool (env : Env) (name : String) (args : Args)
    (hargs : args ≠ []) (h1 : name ≠ "lint_markdown") (h2 : name ≠ "fix_markdown") :
    (env.installed = true →
      (handle_call_tool env name (some args)).fst
        = Except.error (DispatchError.valueError ("Unknown tool: " ++ name)))
  ∧ (env.installed = false →
      (handle_call_tool env name (some args)).fst = Except.ok [notInstalledMsg]) := by
  obtain ⟨a, t, rfl⟩ := List.exists_cons_of_ne_nil hargs
  exact ⟨fun hi => by rw [handle_route_unknown env name a t hi h1 h2],
         fun hi => by rw [handle_route_unavailable env name a t hi]⟩

/-- Witness for C5 (amended), installed case. -/
theorem C5_witness :
    (handle_call_tool envBase "other_tool" (some [("file_path", "x")])).fst
      = Except.error (DispatchError.valueError ("Unknown tool: " ++ "other_tool")) :=
  (C5_unknown_tool envBase "other_tool" [("file_path", "x")]
    (by decide) (by decide) (by decide)).1 rfl

lemma runLint_trace (env : Env) (args : Args) :
    ((runLint env args).snd.engineCalled = true →
        (runLint env args).snd.stdoutLog.head? = some StdoutVal.captureBuffer ∧
        (runLint env args).snd.stdoutLog.getLast? = some StdoutVal.original)
  ∧ ((runLint env args).snd.engineCalled = false → (runLint env args).snd.stdoutLog = []) := by
  unfold runLint
  split_ifs with h1 h2
  · exact ⟨fun h => by simp [CallTrace.empty] at h, fun _ => rfl⟩
  · exact ⟨fun h => by simp [CallTrace.empty] at h, fun _ => rfl⟩
  · cases env.scan (env.render (env.resolve ((getArg args "file_path").getD "")))
        (appliedConfig env args (env.resolve ((getArg args "file_path").getD ""))) with
    | ok r output => exact ⟨fun _ => ⟨rfl, rfl⟩, fun h => by simp at h⟩
    | apiExc m w => exact ⟨fun _ => ⟨rfl, rfl⟩, fun h => by simp at h⟩
    | otherExc m w => exact ⟨fun _ => ⟨rfl, rfl⟩, fun h => by simp at h⟩

lemma runFix_trace (env : Env) (args : Args) :
    ((runFix env args).snd.engineCalled = true →
        (runFix env args).snd.stdoutLog.head? = some StdoutVal.captureBuffer ∧
        (runFix env args).snd.stdoutLog.getLast? = some StdoutVal.original)
  ∧ ((runFix env args).snd.engineCalled = false → (runFix env args).snd.stdoutLog = []) := by
  unfold runFix
  split_ifs with h1 h2
  · exact ⟨fun h => by simp [CallTrace.empty] at h, fun _ => rfl⟩
  · exact ⟨fun h => by simp [CallTrace.empty] at h, fun _ => rfl⟩
  · cases env.fix (env.render (env.resolve ((getArg args "file_path").getD "")))
        (appliedConfig env args (env.resolve ((getArg args "file_path").getD ""))) with
    | ok r output => exact ⟨fun _ => ⟨rfl, rfl⟩, fun h => by simp at h⟩
    | apiExc m w => exact ⟨fun _ => ⟨rfl, rfl⟩, fun h => by simp at h⟩
    | otherExc m w => exact ⟨fun _ => ⟨rfl, rfl⟩, fun h => by simp at h⟩

/-- C6: in every invocation, if the engine-call region is entered — and the
output-capture redirection therefore established — the first `sys.stdout`
assignment is the capture buffer and the LAST one restores the original
stream, on the normal-return path and on every exception path alike; an
invocation that never establishes the redirection never touches
`sys.stdout` at all. -/
theorem C6_stdout_restored (env : Env) (name : String) (arguments : Option Args) :
    ((handle_call_tool env name arguments).snd.engineCalled = true →
        (handle_call_tool env name arguments).snd.stdoutLog.head? = some StdoutVal.captureBuffer ∧
        (handle_call_tool env name arguments).snd.stdoutLog.getLast? = some StdoutVal.original)
  ∧ ((handle_call_tool env name arguments).snd.engineCalled = false →
        (handle_call_tool env name arguments).snd.stdoutLog = []) := by
  rcases arguments with _ | args
  · exact ⟨fun h => by simp [handle_call_tool, CallTrace.empty] at h, fun _ => rfl⟩
  rcases args with _ | ⟨a, t⟩
  · exact ⟨fun h => by simp [handle_call_tool, CallTrace.empty] at h, fun _ => rfl⟩
  by_cases hinst : env.installed = true
  · by_cases hl : name = "lint_markdown"
    · subst hl; rw [handle_route_lint env a t hinst]; exact runLint_trace env (a :: t)
    · by_cases hf : name = "fix_markdown"
      · subst hf; rw [handle_route_fix env a t hinst]; exact runFix_trace env (a :: t)
      · rw [handle_route_unknown env name a t hinst hl hf]
        exact ⟨fun h => by simp [CallTrace.empty] at h, fun _ => rfl⟩
  · have hinst' : env.installed = false := by revert hinst; cases env.installed <;> simp
    rw [handle_route_unavailable env name a t hinst']
    exact ⟨fun h => by simp [CallTrace.empty] at h, fun _ => rfl⟩

/-- Witness for C6 on an invocation that does reach the engine. -/
theorem C6_witness :
    (handle_call_tool envScanClean "lint_markdown" (some [("file_path", "m.md")])).snd.stdoutLog.head?
        = some StdoutVal.captureBuffer
  ∧ (handle_call_tool envScanClean "lint_markdown"
        (some [("file_path", "m.md")])).snd.stdoutLog.getLast?
        = some StdoutVal.original :=
  (C6_stdout_restored envScanClean "lint_markdown" (some [("file_path", "m.md")])).1 rfl

/-- C7: a `lint_markdown` invocation that reaches the engine and whose scan
returns normally yields a returned `Success`-style content response in
every case: the fixed affirmative message when there are no scan failures,
and — still as a completed operation, not an error — the captured
diagnostic text when there are failures, or the fixed fallback sentence
when nothing was captured. -/
theorem C7_lint_success_mapping (env : Env) (args : Args) (fp : String)
    (r : ScanResult) (out : String)
    (hinst : env.installed = true) (hargs : args ≠ [])
    (hfp : getArg args "file_path" = some fp) (hfpT : fp ≠ "")
    (hex : env.fs.pathExists (env.resolve fp) = true)
    (hscan : env.scan (env.render (env.resolve fp)) (appliedConfig env args (env.resolve fp))
        = EngineOutcome.ok r out) :
    resultOk (handle_call_tool env "lint_markdown" (some args)).fst = true
  ∧ (r.scan_failures = false →
      (handle_call_tool env "lint_markdown" (some args)).fst
        = Except.ok [lintOkMsg (env.render (env.resolve fp))])
  ∧ (r.scan_failures = true → out ≠ "" →
      (handle_call_tool env "lint_markdown" (some args)).fst
        = Except.ok ["Linting errors found in " ++ env.render (env.resolve fp) ++ ":\n\n" ++ out])
  ∧ (r.scan_failures = true → out = "" →
      (handle_call_tool env "lint_markdown" (some args)).fst
        = Except.ok ["Linting errors found in " ++ env.render (env.resolve fp) ++ ":\n\n"
            ++ "Issues found but no detailed output."]) := by
  obtain ⟨a, t, rfl⟩ := List.exists_cons_of_ne_nil hargs
  rw [handle_route_lint env a t hinst, runLint_engine env (a :: t) fp hfp hfpT hex, hscan]
  refine ⟨rfl, ?_, ?_, ?_⟩
  · intro h; simp [h]
  · intro h hout; simp [h, lintIssuesMsg, hout]
  · intro h hout; simp [h, lintIssuesMsg, hout]

/-- Witness for C7: a clean scan produces the affirmative message. -/
theorem C7_witness :
    (handle_call_tool envScanClean "lint_markdown" (some [("file_path", "m.md")])).fst
      = Except.ok [lintOkMsg (envScanClean.render (envScanClean.resolve "m.md"))] :=
  (C7_lint_success_mapping envScanClean [("file_path", "m.md")] "m.md" ⟨false⟩ ""
      rfl (by decide) rfl (by decide) rfl rfl).2.1 rfl

lemma checkDir_sound (fs : FS) (d : RPath) (c : RPath) (h : checkDir fs d = some c) :
    fs.pathExists c = true := by
  rw [checkDir, List.findSome?_eq_some_iff] at h
  obtain ⟨l1, n, l2, _, hfn, _⟩ := h
  by_cases hb : fs.pathExists (n :: d) = true
  · rw [if_pos hb] at hfn; cases hfn; exact hb
  · rw [if_neg hb] at hfn; cases hfn

/-- The resolver returns only paths whose existence it has itself checked. -/
lemma find_config_file_sound (fs : FS) (p : RPath) (c : RPath)
    (h : find_config_file fs p = some c) : fs.pathExists c = true := by
  rw [find_config_file] at h
  generalize startDir fs p = d at h
  induction d with
  | nil => rw [searchUp] at h; cases h
  | cons a t ih =>
    rw [searchUp] at h
    cases hc : checkDir fs (a :: t) with
    | some x => rw [hc] at h; cases h; exact checkDir_sound fs (a :: t) _ hc
    | none => rw [hc] at h; exact ih h

lemma appliedConfig_of_supplied (env : Env) (args : Args) (cfg : String)
    (hcfg : getArg args "config_path" = some cfg) (hne : cfg ≠ "") (rp : RPath) :
    appliedConfig env args rp = some cfg := by
  have htr : truthy (getArg args "config_path") = true := by rw [hcfg]; simp [truthy, hne]
  have hch : chosenConfig env args rp = some cfg := by
    rw [chosenConfig, if_pos htr, hcfg]
  rw [appliedConfig, hch, if_pos (by simp [truthy, hne])]

lemma runLint_resolver (env : Env) (args : Args) (cfg : String)
    (hcfg : getArg args "config_path" = some cfg) (hne : cfg ≠ "") :
    (runLint env args).snd.resolverCalled = false
  ∧ ((runLint env args).snd.engineCalled = true →
      (runLint env args).snd.engineConfigArg = some (some cfg)) := by
  have htr : truthy (getArg args "config_path") = true := by rw [hcfg]; simp [truthy, hne]
  unfold runLint
  split_ifs with h1 h2
  · exact ⟨rfl, fun h => by simp [CallTrace.empty] at h⟩
  · exact ⟨rfl, fun h => by simp [CallTrace.empty] at h⟩
  · cases env.scan (env.render (env.resolve ((getArg args "file_path").getD "")))
        (appliedConfig env args (env.resolve ((getArg args "file_path").getD ""))) with
    | ok r output =>
      exact ⟨by simp [resolverUsed, htr],
             fun _ => by rw [appliedConfig_of_supplied env args cfg hcfg hne]⟩
    | apiExc m w =>
      exact ⟨by simp [resolverUsed, htr],
             fun _ => by rw [appliedConfig_of_supplied env args cfg hcfg hne]⟩
    | otherExc m w =>
      exact ⟨by simp [resolverUsed, htr],
             fun _ => by rw [appliedConfig_of_supplied env args cfg hcfg hne]⟩

lemma runFix_resolver (env : Env) (args : Args) (cfg : String)
    (hcfg : getArg args "config_path" = some cfg) (hne : cfg ≠ "") :
    (runFix env args).snd.resolverCalled = false
  ∧ ((runFix env args).snd.engineCalled = true →
      (runFix env args).snd.engineConfigArg = some (some cfg)) := by
  have htr : truthy (getArg args "config_path") = true := by rw [hcfg]; simp [truthy, hne]
  unfold runFix
  split_ifs with h1 h2
  · exact ⟨rfl, fun h => by simp [CallTrace.empty] at h⟩
  · exact ⟨rfl, fun h => by simp [CallTrace.empty] at h⟩
  · cases env.fix (env.render (env.resolve ((getArg args "file_path").getD "")))
        (appliedConfig env args (env.resolve ((getArg args "file_path").getD ""))) with
    | ok r output =>
      exact ⟨by simp [resolverUsed, htr],
             fun _ => by rw [appliedConfig_of_supplied env args cfg hcfg hne]⟩
    | apiExc m w =>
      exact ⟨by simp [resolverUsed, htr],
             fun _ => by rw [appliedConfig_of_supplied env args cfg hcfg hne]⟩
    | otherExc m w =>
      exact ⟨by simp [resolverUsed, htr],
             fun _ => by rw [appliedConfig_of_supplied env args cfg hcfg hne]⟩

/-- C9: whenever `config_path` is supplied non-empty, `find_config_file`
is never called (on any path through the handler, for any tool name) and,
if the engine is reached, the supplied string is the configuration handed
to it — for EVERY filesystem, i.e. with no existence check on that path;
only resolver-discovered paths are existence-checked (last conjunct). -/
theorem C9_supplied_config_bypasses_resolver (env : Env) (name : String) (args : Args)
    (cfg : String)
    (hcfg : getArg args "config_path" = some cfg) (hne : cfg ≠ "") :
    (handle_call_tool env name (some args)).snd.resolverCalled = false
  ∧ ((handle_call_tool env name (some args)).snd.engineCalled = true →
      (handle_call_tool env name (some args)).snd.engineConfigArg = some (some cfg))
  ∧ (∀ fs p c, find_config_file fs p = some c → fs.pathExists c = true) := by
  rcases args with _ | ⟨a, t⟩
  · rw [getArg] at hcfg; cases hcfg
  by_cases hinst : env.installed = true
  · by_cases hl : name = "lint_markdown"
    · subst hl
      rw [handle_route_lint env a t hinst]
      exact ⟨(runLint_resolver env (a :: t) cfg hcfg hne).1,
             (runLint_resolver env (a :: t) cfg hcfg hne).2,
             find_config_file_sound⟩
    · by_cases hf : name = "fix_markdown"
      · subst hf
        rw [handle_route_fix env a t hinst]
        exact ⟨(runFix_resolver env (a :: t) cfg hcfg hne).1,
               (runFix_resolver env (a :: t) cfg hcfg hne).2,
               find_config_file_sound⟩
      · rw [handle_route_unknown env name a t hinst hl hf]
        exact ⟨rfl, fun h => by simp [CallTrace.empty] at h, find_config_file_sound⟩
  · have hinst' : env.installed = false := by revert hinst; cases env.installed <;> simp
    rw [handle_route_unavailable env name a t hinst']
    exact ⟨rfl, fun h => by simp [CallTrace.empty] at h, find_config_file_sound⟩

/-- Witness for C9: supplied config is used verbatim, resolver skipped. -/
theorem C9_witness :
    (handle_call_tool envScanClean "lint_markdown"
        (some [("file_path", "m.md"), ("config_path", "cfg.json")])).snd.resolverCalled = false
  ∧ (handle_call_tool envScanClean "lint_markdown"
        (some [("file_path", "m.md"), ("config_path", "cfg.json")])).snd.engineConfigArg
      = some (some "cfg.json") :=
  ⟨(C9_supplied_config_bypasses_resolver envScanClean "lint_markdown"
      [("file_path", "m.md"), ("config_path", "cfg.json")] "cfg.json" rfl (by decide)).1,
   (C9_supplied_config_bypasses_resolver envScanClean "lint_markdown"
      [("file_path", "m.md"), ("config_path", "cfg.json")] "cfg.json" rfl (by decide)).2.1 rfl⟩

/-- C10: a lint or fix invocation whose non-empty arguments map `file_path`
to the empty string is treated as missing the argument (presence is tested
by Python truthiness): the handler raises the `file_path is required`
`ValueError` — so in particular it does NOT report `NotFound` for the
empty path — provided the invocation passes the engine-availability check
that precedes this validation in the handler. -/
theorem C10_empty_file_path_is_missing (env : Env) (name : String) (args : Args)
    (hinst : env.installed = true)
    (hname : name = "lint_markdown" ∨ name = "fix_markdown")
    (hargs : args ≠ [])
    (hfp : getArg args "file_path" = some "") :
    (handle_call_tool env name (some args)).fst
      = Except.error (DispatchError.valueError "file_path is required") := by
  obtain ⟨a, t, rfl⟩ := List.exists_cons_of_ne_nil hargs
  have h1 : truthy (getArg (a :: t) "file_path") = false := by rw [hfp]; simp [truthy]
  rcases hname with rfl | rfl
  · rw [handle_route_lint env a t hinst]
    unfold runLint
    rw [if_pos h1]
  · rw [handle_route_fix env a t hinst]
    unfold runFix
    rw [if_pos h1]

/-- Witness for C10. -/
theorem C10_witness :
    (handle_call_tool envBase "lint_markdown" (some [("file_path", "")])).fst
      = Except.error (DispatchError.valueError "file_path is required") :=
  C10_empty_file_path_is_missing envBase "lint_markdown" [("file_path", "")]
    rfl (Or.inl rfl) (by decide) rfl

end MarkdownlintServer
